import Mathlib

/-!
Verification development for the Swiss national-road traffic monitoring
dashboard, network-data acquisition and caching pipeline.

The embedding is shallow: every definition below is a direct translation of
a function of the repository.

Main sources:
- src/services/geoAdminApi.ts (route-by-route loader, zone fallback loader,
  merge-with-dedup loop, ramp classification);
- src/services/networkCache.ts (IndexedDB single-slot cache store);
- src/services/networkLoader.ts (cache-or-fetch orchestrator, derived stats);
- src/services/systemStatus.ts (status registry record and partial update).

Modelling conventions:
- asynchronous functions that may reject are translated as Except valued
  functions; the JavaScript pattern of returning an inner Promise from
  inside a try block (without await) is translated faithfully: rejections
  of the inner request are NOT caught by the surrounding catch;
- Date.now() is passed in as an explicit integer parameter;
- IndexedDB is modelled by an explicit CacheState carrying the single slot
  plus the failure modes present in the source (open failure, request
  failures of get / put / delete);
- fractional hour ages are modelled over the rationals.
-/

namespace Traffic

/-- JavaScript-style primitive value, used for feature identifiers.  The
source reads identifiers as arbitrary JS values and tests them for
truthiness, so the model keeps the three shapes that occur: absent, a
number, a string. -/
inductive JsVal where
  | undef : JsVal
  | num : Int → JsVal
  | str : String → JsVal
deriving DecidableEq

/-- JavaScript truthiness for the identifier values of the model:
undefined is falsy, a number is truthy iff nonzero, a string is truthy iff
nonempty. -/
def JsVal.truthy : JsVal → Bool
  | .undef => false
  | .num n => n != 0
  | .str s => s != ""

/-- JavaScript logical-or on values: returns the first operand when it is
truthy, otherwise the second. -/
def JsVal.orJs (a b : JsVal) : JsVal :=
  if a.truthy then a else b

/-- Geometry discriminator of a GeoJSON feature, as far as the source
inspects it (computeStats and the loaders test for LineString,
MultiLineString and Point; every other geometry type is grouped). -/
inductive GeomType where
  | point : GeomType
  | lineString : GeomType
  | multiLineString : GeomType
  | other : GeomType
deriving DecidableEq

/-- Property record of a national-road feature, restricted to the fields
the verified pipeline reads: the id copied into properties, the raw route
number string, the raw segment name string, and the isRamp flag stored at
ingestion time. -/
structure RoadProps where
  pid : JsVal
  strassennummer : Option String
  segmentname : Option String
  isRamp : Bool
deriving DecidableEq

/-- GeoJSON feature as consumed by the pipeline: top level id, property
record, geometry discriminator. -/
structure Feature where
  fid : JsVal
  props : RoadProps
  geomType : GeomType
deriving DecidableEq

/-- GeoJSON feature collection. -/
structure FeatureCollection where
  features : List Feature
deriving DecidableEq

/-- Translation of isRampSegment from src/services/geoAdminApi.ts (the
current revision, also the first document of the unnamed geoAdminApi
source): a segment is a ramp exactly when the raw strassennummer string
(defaulted to the empty string when absent) contains an underscore. -/
def isRampSegment (properties : RoadProps) : Bool :=
  (properties.strassennummer.getD "").toList.contains '_'

/-- Effective identifier used by the merge loops of the loaders:
feature.properties.id, or, when that is falsy, feature.id. -/
def effId (f : Feature) : JsVal :=
  f.props.pid.orJs f.fid

/-- One iteration of the merge loop of loadNationalRoads and
loadByMultipleZones: the accumulator holds the merged feature list and the
set of identifiers already seen; a feature is appended exactly when its
effective identifier is truthy and not seen yet, in which case the
identifier is recorded. -/
def mergeStep (acc : List Feature × List JsVal) (f : Feature) :
    List Feature × List JsVal :=
  if (effId f).truthy ∧ effId f ∉ acc.2 then
    (acc.1 ++ [f], effId f :: acc.2)
  else acc

/-- The sequential merge of fetched features, as performed by the nested
loops of loadNationalRoads and loadByMultipleZones over the concatenation
of all partition results in partition order (the chunked awaiting of the
source preserves that order). -/
def mergeFeatures (l : List Feature) : List Feature :=
  (l.foldl mergeStep ([], [])).1

/-- Structural recursion equivalent of the merge loop: keep the first
occurrence of every truthy identifier not already in the seen set. -/
def keepFirstBy (seen : List JsVal) : List Feature → List Feature
  | [] => []
  | f :: fs =>
    if (effId f).truthy ∧ effId f ∉ seen then
      f :: keepFirstBy (effId f :: seen) fs
    else keepFirstBy seen fs

/-- Seen set produced by running the merge loop on a list, starting from a
given seen set. -/
def seenAfter (seen : List JsVal) : List Feature → List JsVal
  | [] => seen
  | f :: fs =>
    if (effId f).truthy ∧ effId f ∉ seen then
      seenAfter (effId f :: seen) fs
    else seenAfter seen fs

theorem foldl_mergeStep_eq (l : List Feature) :
    ∀ (out : List Feature) (seen : List JsVal),
      l.foldl mergeStep (out, seen) = (out ++ keepFirstBy seen l, seenAfter seen l) := by
  induction l with
  | nil => intro out seen; simp [keepFirstBy, seenAfter]
  | cons f fs ih =>
    intro out seen
    by_cases h : (effId f).truthy ∧ effId f ∉ seen
    · simp [List.foldl_cons, mergeStep, if_pos h, keepFirstBy, seenAfter, ih]
    · simp [List.foldl_cons, mergeStep, if_neg h, keepFirstBy, seenAfter, ih]

theorem mergeFeatures_eq_keepFirstBy (l : List Feature) :
    mergeFeatures l = keepFirstBy [] l := by
  simp [mergeFeatures, foldl_mergeStep_eq]

theorem keepFirstBy_sublist (seen : List JsVal) (l : List Feature) :
    List.Sublist (keepFirstBy seen l) l := by
  induction l generalizing seen with
  | nil => simp [keepFirstBy]
  | cons f fs ih =>
    by_cases h : (effId f).truthy ∧ effId f ∉ seen
    · simpa [keepFirstBy, if_pos h] using List.Sublist.cons₂ f (ih (effId f :: seen))
    · simpa [keepFirstBy, if_neg h] using List.Sublist.cons f (ih seen)

theorem keepFirstBy_mem_truthy (seen : List JsVal) (l : List Feature) (f : Feature)
    (hf : f ∈ keepFirstBy seen l) : (effId f).truthy = true := by
  induction l generalizing seen with
  | nil => simp [keepFirstBy] at hf
  | cons g gs ih =>
    by_cases h : (effId g).truthy ∧ effId g ∉ seen
    · rw [keepFirstBy, if_pos h] at hf
      rcases List.mem_cons.mp hf with hfg | hmem
      · exact hfg ▸ h.1
      · exact ih (effId g :: seen) hmem
    · rw [keepFirstBy, if_neg h] at hf
      exact ih seen hf

theorem keepFirstBy_mem_not_seen (seen : List JsVal) (l : List Feature) (f : Feature)
    (hf : f ∈ keepFirstBy seen l) : effId f ∉ seen := by
  induction l generalizing seen with
  | nil => simp [keepFirstBy] at hf
  | cons g gs ih =>
    by_cases h : (effId g).truthy ∧ effId g ∉ seen
    · rw [keepFirstBy, if_pos h] at hf
      rcases List.mem_cons.mp hf with hfg | hmem
      · exact hfg ▸ h.2
      · intro hin
        exact ih (effId g :: seen) hmem (List.mem_cons_of_mem _ hin)
    · rw [keepFirstBy, if_neg h] at hf
      exact ih seen hf

theorem keepFirstBy_map_nodup (seen : List JsVal) (l : List Feature) :
    ((keepFirstBy seen l).map effId).Nodup := by
  induction l generalizing seen with
  | nil => simp [keepFirstBy]
  | cons g gs ih =>
    by_cases h : (effId g).truthy ∧ effId g ∉ seen
    · rw [keepFirstBy, if_pos h]
      refine List.nodup_cons.mpr ⟨?_, ih (effId g :: seen)⟩
      intro hmem
      rcases List.mem_map.mp hmem with ⟨f, hfmem, hfeq⟩
      have hns := keepFirstBy_mem_not_seen (effId g :: seen) gs f hfmem
      exact hns (hfeq ▸ List.mem_cons_self _ _)
    · rw [keepFirstBy, if_neg h]
      exact ih seen

theorem keepFirstBy_first_mem (pre : List Feature) :
    ∀ (seen : List JsVal) (f : Feature) (post : List Feature),
      (effId f).truthy = true → effId f ∉ seen →
      (∀ g ∈ pre, effId g ≠ effId f) →
      f ∈ keepFirstBy seen (pre ++ f :: post) := by
  induction pre with
  | nil =>
    intro seen f post htruthy hseen _
    rw [List.nil_append, keepFirstBy, if_pos ⟨htruthy, hseen⟩]
    exact List.mem_cons_self _ _
  | cons g gs ih =>
    intro seen f post htruthy hseen hpre
    rw [List.cons_append, keepFirstBy]
    by_cases h : (effId g).truthy ∧ effId g ∉ seen
    · rw [if_pos h]
      refine List.mem_cons_of_mem _ (ih (effId g :: seen) f post htruthy ?_ ?_)
      · intro hin
        rcases List.mem_cons.mp hin with heq | hin2
        · exact hpre g (List.mem_cons_self _ _) heq.symm
        · exact hseen hin2
      · intro g2 hg2 ; exact hpre g2 (List.mem_cons_of_mem _ hg2)
    · rw [if_neg h]
      exact ih seen f post htruthy hseen fun g2 hg2 => hpre g2 (List.mem_cons_of_mem _ hg2)

/-- Failure values of the pipeline: the IndexedDB open, get, put and delete
rejections of src/services/networkCache.ts, and the HTTP error thrown by
the fetch helpers of src/services/geoAdminApi.ts. -/
inductive JsError where
  | cacheOpen : JsError
  | cacheRead : JsError
  | cacheWrite : JsError
  | cacheDelete : JsError
  | api : Nat → JsError
deriving DecidableEq

/-- Per-unit recovery of the loaders: a failing partition unit contributes
an empty feature list instead of aborting the whole fetch (the try / catch
around loadRouteData and the catch attached to loadByZone). -/
def recoverUnit (r : Except JsError (List Feature)) : List Feature :=
  match r with
  | .ok fs => fs
  | .error _ => []

/-- Fixed list of Swiss national route numbers queried by
loadNationalRoads (src/services/geoAdminApi.ts). -/
def ROUTE_NUMBERS : List String :=
  ["N1", "N2", "N3", "N4", "N5", "N6", "N7", "N8", "N9",
   "N10", "N11", "N12", "N13", "N14", "N15", "N16", "N17", "N18",
   "N20", "N21", "N22", "N23", "N24", "N25", "N28"]

/-- Concatenation, in route order, of the per-route fetch outcomes after
per-unit recovery.  The source awaits routes in chunks of five but merges
chunk results in order, so the merge loop consumes exactly this list. -/
def routeFetchList (fetch : String → Except JsError (List Feature)) : List Feature :=
  (ROUTE_NUMBERS.map fun r => recoverUnit (fetch r)).flatten

/-- Translation of loadNationalRoads: fetch every route of ROUTE_NUMBERS
(parametrised here by the outcome of each remote call), recover failing
routes to empty lists, and run the dedup merge loop over the results in
route order. -/
def loadNationalRoads (fetch : String → Except JsError (List Feature)) :
    FeatureCollection :=
  ⟨mergeFeatures (routeFetchList fetch)⟩

/-- Concatenation, in zone order, of the per-zone fetch outcomes after
per-unit recovery.  The geographic grid construction of
loadByMultipleZones (floating point bounding boxes) does not influence the
merge, so the model is parametrised by the list of per-zone outcomes. -/
def zoneFetchList (zoneResults : List (Except JsError (List Feature))) : List Feature :=
  (zoneResults.map recoverUnit).flatten

/-- Translation of loadByMultipleZones: fetch every zone of the grid
(parametrised by the outcome of each remote call, one entry per zone),
recover failing zones to empty lists, and run the same dedup merge loop in
zone order.  The function always resolves; it never raises a no-data
error. -/
def loadByMultipleZones (zoneResults : List (Except JsError (List Feature))) :
    FeatureCollection :=
  ⟨mergeFeatures (zoneFetchList zoneResults)⟩

/-- Translation of loadNationalRoadsWithFallback: run the route-by-route
strategy; keep its result when it returned strictly more than 1000
features, otherwise escalate to the zone strategy.  Both strategies
recover every per-unit failure internally, so the surrounding try / catch
of the source never observes a rejection and the function always resolves
with a collection, even an empty one. -/
def loadNationalRoadsWithFallback (fetch : String → Except JsError (List Feature))
    (zoneResults : List (Except JsError (List Feature))) :
    Except JsError FeatureCollection :=
  let result := loadNationalRoads fetch
  if 1000 < result.features.length then .ok result
  else .ok (loadByMultipleZones zoneResults)

/-- Prefix test on character lists (helper for the substring test used by
the claim-side ramp predicate). -/
def prefixCheck : List Char → List Char → Bool
  | [], _ => true
  | _ :: _, [] => false
  | a :: as, b :: bs => a == b && prefixCheck as bs

/-- Substring test on character lists: the pattern occurs at some position
of the haystack. -/
def hasSub (pat : List Char) : List Char → Bool
  | [] => prefixCheck pat []
  | c :: cs => prefixCheck pat (c :: cs) || hasSub pat cs

/-- Uppercased character sequence of a string. -/
def upperChars (s : String) : List Char :=
  s.toList.map Char.toUpper

/-- Substring test: the pattern occurs in the uppercased haystack. -/
def strHasSub (hay pat : String) : Bool :=
  hasSub pat.toList (upperChars hay)

/-- Abbreviation tokens for exits, entries, branches and feeder ramps, as
listed by the pattern-based revision of isRampSegment present in the
repository (the second document of the unnamed geoAdminApi source). -/
def rampTokens : List String :=
  ["AUSTW", "AUSTO", "AUSTN", "AUSTS", "AUSF", "EINST", "EINF",
   "RAMP", "VERZ", "ZUBR", "AST", "_A", "_B", "_R"]

/-- Claim-side ramp predicate, stated from the specification wording for
comparison with isRampSegment: a ramp is detected by an underscore in the
route-number string, or by one of the known abbreviation tokens occurring
in either the segment-name or the route-number field (both uppercased, as
in the pattern-based revision the specification describes). -/
def rampClaimPred (properties : RoadProps) : Bool :=
  (properties.strassennummer.getD "").toList.contains '_' ||
    rampTokens.any fun t =>
      strHasSub (properties.segmentname.getD "") t ||
        strHasSub (properties.strassennummer.getD "") t

/-- Cache validity threshold of src/services/networkCache.ts:
24 hours in milliseconds. -/
def CACHE_DURATION_MS : Int := 24 * 60 * 60 * 1000

/-- Single cache slot entry, as written by saveToCache: the feature
collection, the write instant, and the feature count at write time. -/
structure CachedData where
  data : FeatureCollection
  timestamp : Int
  featureCount : Nat
deriving DecidableEq

/-- State of the IndexedDB backed cache store: whether openDatabase
succeeds, the content of the single slot, and whether the get / put /
delete requests fire their error handlers. -/
structure CacheState where
  engineAvailable : Bool
  entry : Option CachedData
  readFails : Bool
  writeFails : Bool
  deleteFails : Bool
deriving DecidableEq

/-- Translation of getFromCache: when openDatabase rejects, the catch
returns null (entry absent); when the database opens, the inner Promise is
returned without await, so a failing get request rejects the returned
Promise (the rejection escapes the catch); otherwise the stored record, or
null when the slot is empty, is resolved. -/
def getFromCache (st : CacheState) : Except JsError (Option CachedData) :=
  if st.engineAvailable then
    if st.readFails then .error .cacheRead
    else .ok st.entry
  else .ok none

/-- Translation of saveToCache: when openDatabase rejects, the catch turns
the save into a no-op; when the database opens, the inner Promise is
returned without await, so a failing put request rejects (the rejection
escapes the catch); otherwise the single slot is overwritten with the
collection, the current instant and the feature count. -/
def saveToCache (st : CacheState) (data : FeatureCollection) (now : Int) :
    Except JsError CacheState :=
  if st.engineAvailable then
    if st.writeFails then .error .cacheWrite
    else .ok { st with entry := some ⟨data, now, data.features.length⟩ }
  else .ok st

/-- Translation of clearCache: no-op when openDatabase rejects; a failing
delete request rejects (it escapes the catch, as above); otherwise the
slot is emptied. -/
def clearCache (st : CacheState) : Except JsError CacheState :=
  if st.engineAvailable then
    if st.deleteFails then .error .cacheDelete
    else .ok { st with entry := none }
  else .ok st

/-- Translation of isCacheValid: read the cache (propagating a rejection),
return false when no entry exists, otherwise compare the age against the
24 hour threshold, strictly. -/
def isCacheValid (st : CacheState) (now : Int) : Except JsError Bool :=
  match getFromCache st with
  | .error e => .error e
  | .ok none => .ok false
  | .ok (some cached) => .ok (decide (now - cached.timestamp < CACHE_DURATION_MS))

/-- Health states of the status registry (src/services/systemStatus.ts). -/
inductive SystemState where
  | online : SystemState
  | offline : SystemState
  | degraded : SystemState
  | loading : SystemState
  | unknown : SystemState
deriving DecidableEq

/-- Registry record of one subsystem, restricted to what the verified
claims observe: the declared state field read by every consumer, the stray
status property that a spread of a payload carrying a status key creates
on the record, and whether lastCheck has been refreshed. -/
structure SystemInfo where
  state : SystemState
  statusExtra : Option SystemState
  lastCheckSet : Bool
deriving DecidableEq

/-- Update payload passed to updateSystemStatus, keyed as in the calling
code: an optional state key and an optional status key.  The loader of
src/services/networkLoader.ts fills only the status key; the declared
interface of SystemInfo only has a state field. -/
structure StatusUpdate where
  stateKey : Option SystemState
  statusKey : Option SystemState
deriving DecidableEq

/-- Translation of updateSystemStatus for an existing record: the object
spread merges the payload over the current record key by key, so a state
key overwrites the state field, a status key lands as a stray property,
and lastCheck is always refreshed. -/
def updateSystemStatus (info : SystemInfo) (u : StatusUpdate) : SystemInfo :=
  { state := u.stateKey.getD info.state,
    statusExtra := match u.statusKey with
      | some s => some s
      | none => info.statusExtra,
    lastCheckSet := true }

/-- Payload shape used by every updateSystemStatus call in
src/services/networkLoader.ts: the health value is passed under the status
key, not under the state key of the SystemInfo interface. -/
def loaderPayload (s : SystemState) : StatusUpdate :=
  ⟨none, some s⟩

/-- Initial network-layer record of the registry (defaultSystems of
src/services/systemStatus.ts): state unknown. -/
def initialNetworkLayer : SystemInfo :=
  ⟨.unknown, none, false⟩

/-- Derived statistics of a load (LoadResult.stats). -/
structure Stats where
  totalFeatures : Nat
  mainAxes : Nat
  ramps : Nat
  points : Nat
deriving DecidableEq

/-- Origin of the data of a load result. -/
inductive DataSource where
  | cache : DataSource
  | api : DataSource
deriving DecidableEq

/-- Cache age information attached to a cache sourced load result. -/
structure CacheInfo where
  ageHours : ℚ
  timestamp : Int
deriving DecidableEq

/-- Result of loadNetworkData. -/
structure LoadResult where
  data : FeatureCollection
  source : DataSource
  stats : Stats
  cacheInfo : Option CacheInfo
deriving DecidableEq

/-- Translation of computeStats (src/services/networkLoader.ts): line
features are the LineString and MultiLineString geometries, points are the
Point geometries, and the main-axis / ramp split of the lines re-applies
isRampSegment to the raw properties at load time; the stored isRamp flag
is not consulted. -/
def computeStats (data : FeatureCollection) : Stats :=
  let lines := data.features.filter fun f =>
    f.geomType == GeomType.lineString || f.geomType == GeomType.multiLineString
  let points := data.features.filter fun f => f.geomType == GeomType.point
  let mainAxes := lines.filter fun f => ! isRampSegment f.props
  let ramps := lines.filter fun f => isRampSegment f.props
  ⟨data.features.length, mainAxes.length, ramps.length, points.length⟩

/-- Cache age in fractional hours, as computed inline by loadNetworkData:
(now - timestamp) / (60 * 60 * 1000). -/
def ageHoursOf (now ts : Int) : ℚ :=
  ((now : ℚ) - (ts : ℚ)) / (60 * 60 * 1000)

/-- Decidable equality on settled Promise outcomes. -/
instance {ε α : Type} [DecidableEq ε] [DecidableEq α] : DecidableEq (Except ε α) :=
  fun a b =>
    match a, b with
    | .error e, .error e2 =>
      if h : e = e2 then isTrue (by rw [h]) else isFalse (by intro hc; cases hc; exact h rfl)
    | .ok x, .ok y =>
      if h : x = y then isTrue (by rw [h]) else isFalse (by intro hc; cases hc; exact h rfl)
    | .error _, .ok _ => isFalse (by intro hc; cases hc)
    | .ok _, .error _ => isFalse (by intro hc; cases hc)

/-- Observable outcome of one loadNetworkData invocation: the settled
result of the returned Promise, the final cache state, and the final
network-layer registry record (side effects survive a rejection). -/
structure LoadOutcome where
  result : Except JsError LoadResult
  cache : CacheState
  registry : SystemInfo
deriving DecidableEq

/-- Translation of the catch block of loadNetworkData: read any cache
entry regardless of staleness (a rejection of that read propagates); when
an entry exists, resolve with it as a best-effort result and push the
degraded payload to the registry; when the slot is empty, push the offline
payload and reject with the original error. -/
def loadCatch (e : JsError) (st : CacheState) (reg : SystemInfo) (now : Int) :
    LoadOutcome :=
  match getFromCache st with
  | .error e2 => ⟨.error e2, st, reg⟩
  | .ok (some cached) =>
    ⟨.ok ⟨cached.data, .cache, computeStats cached.data,
          some ⟨ageHoursOf now cached.timestamp, cached.timestamp⟩⟩,
     st, updateSystemStatus reg (loaderPayload .degraded)⟩
  | .ok none =>
    ⟨.error e, st, updateSystemStatus reg (loaderPayload .offline)⟩

/-- Translation of the fetch part of loadNetworkData: push the loading
payload, then run the try block (remote fetch, then saveToCache, then
resolve with an api sourced result and the online payload); any rejection
inside the try block, of the fetch or of the save, enters the catch
block. -/
def loadFetch (fetchResult : Except JsError FeatureCollection) (st : CacheState)
    (reg : SystemInfo) (now : Int) : LoadOutcome :=
  let reg1 := updateSystemStatus reg (loaderPayload .loading)
  match fetchResult with
  | .error e => loadCatch e st reg1 now
  | .ok data =>
    match saveToCache st data now with
    | .error e => loadCatch e st reg1 now
    | .ok st2 =>
      ⟨.ok ⟨data, .api, computeStats data, none⟩,
       st2, updateSystemStatus reg1 (loaderPayload .online)⟩

/-- Translation of loadNetworkData (src/services/networkLoader.ts).  The
remote fetch is parametrised by its outcome; Date.now() is the now
parameter.  Steps, in source order: clear the cache when forceRefresh is
set (a rejection of the delete propagates); query isCacheValid (a
rejection propagates); when the cache is valid and no refresh was forced,
read the entry (a rejection propagates) and, when present, resolve from
the cache with recomputed stats, the age in hours and the online payload;
in every other case run the fetch part. -/
def loadNetworkData (forceRefresh : Bool) (st : CacheState) (reg : SystemInfo)
    (fetchResult : Except JsError FeatureCollection) (now : Int) : LoadOutcome :=
  match (if forceRefresh then clearCache st else .ok st) with
  | .error e => ⟨.error e, st, reg⟩
  | .ok st1 =>
    match isCacheValid st1 now with
    | .error e => ⟨.error e, st1, reg⟩
    | .ok cacheValid =>
      if cacheValid && ! forceRefresh then
        match getFromCache st1 with
        | .error e => ⟨.error e, st1, reg⟩
        | .ok (some cached) =>
          ⟨.ok ⟨cached.data, .cache, computeStats cached.data,
                some ⟨ageHoursOf now cached.timestamp, cached.timestamp⟩⟩,
           st1, updateSystemStatus reg (loaderPayload .online)⟩
        | .ok none => loadFetch fetchResult st1 reg now
      else loadFetch fetchResult st1 reg now

/-! Concrete fixtures used by counterexamples and witnesses. -/

/-- A main-axis line feature (route N1, no underscore). -/
def exProps : RoadProps := ⟨.num 7, some "N1", some "ECUBLENS - WANKDORF", false⟩

def exFeature : Feature := ⟨.num 7, exProps, .lineString⟩

def exFC : FeatureCollection := ⟨[exFeature]⟩

/-- A ramp line feature (underscore suffix in the route number). -/
def exProps2 : RoadProps := ⟨.num 8, some "N1_YVER", some "S4", true⟩

def exFeature2 : Feature := ⟨.num 8, exProps2, .lineString⟩

def exFC2 : FeatureCollection := ⟨[exFeature, exFeature2]⟩

/-- A feature whose identifiers are all falsy: properties.id is zero and
the top level id is absent. -/
def badIdFeature : Feature := ⟨.undef, ⟨.num 0, some "N2", none, false⟩, .lineString⟩

/-- Cache entry written at instant 0 holding exFC. -/
def freshEntry : CachedData := ⟨exFC, 0, 1⟩

/-- Cache state with the entry and a fully working engine. -/
def stFresh : CacheState := ⟨true, some freshEntry, false, false, false⟩

/-- Cache state with an empty slot and a fully working engine. -/
def stEmpty : CacheState := ⟨true, none, false, false, false⟩

/-- Cache state whose get request fires its error handler. -/
def stReadFail : CacheState := ⟨true, some freshEntry, true, false, false⟩

/-- Cache state whose put request fires its error handler. -/
def stWriteFail : CacheState := ⟨true, none, false, true, false⟩

/-- Cache state whose delete request fires its error handler. -/
def stDeleteFail : CacheState := ⟨true, none, false, false, true⟩

/-- Two hours, in milliseconds. -/
def t2h : Int := 2 * 60 * 60 * 1000

/-- Thirty hours, in milliseconds (the entry written at 0 is stale). -/
def t30h : Int := 30 * 60 * 60 * 1000

/-! Claim theorems. -/

/-- C3 counterexample: with the engine available, an entry present and the
get request failing, isCacheValid rejects with the read error and in
particular does not return false, contradicting the claim that in every
case other than a fresh entry it returns false. -/
theorem isCacheValid_rejects_on_read_failure :
    isCacheValid stReadFail t2h = .error .cacheRead ∧
    isCacheValid stReadFail t2h ≠ .ok false ∧
    isCacheValid stReadFail t2h ≠ .ok true := by
  decide

/-- C3 amended: isCacheValid returns true exactly when the cache read
yields an entry strictly younger than 24 hours; it returns false whenever
the read yields no entry, in particular whenever the storage engine is
unavailable; when the engine is available but the get request fails, the
call rejects with the read error instead of returning. -/
theorem isCacheValid_freshness (st : CacheState) (now : Int) :
    (isCacheValid st now = .ok true ↔
      ∃ cached, getFromCache st = .ok (some cached) ∧
        now - cached.timestamp < CACHE_DURATION_MS) ∧
    (getFromCache st = .ok none → isCacheValid st now = .ok false) ∧
    (st.engineAvailable = false → isCacheValid st now = .ok false) ∧
    (st.engineAvailable = true → st.readFails = true →
      isCacheValid st now = .error .cacheRead) := by
  obtain ⟨eng, entry, rf, wf, df⟩ := st
  cases eng <;> cases rf <;> rcases entry with _ | c <;>
    simp [isCacheValid, getFromCache]

/-- C3 witness: the amended statement applied at a working cache state
with a two hour old entry. -/
theorem isCacheValid_freshness_witness :
    isCacheValid stFresh t2h = .ok true ∧ isCacheValid stEmpty t2h = .ok false :=
  ⟨((isCacheValid_freshness stFresh t2h).1.mpr
      ⟨freshEntry, by decide, by decide⟩),
   (isCacheValid_freshness stEmpty t2h).2.1 (by decide)⟩

/-- C6 counterexample: each cache operation rejects when the engine opens
but the underlying IndexedDB request fails, contradicting the claim that
the operations never reject on storage failure. -/
theorem cacheStore_rejects_on_request_failure :
    getFromCache stReadFail = .error .cacheRead ∧
    saveToCache stWriteFail exFC 5 = .error .cacheWrite ∧
    clearCache stDeleteFail = .error .cacheDelete := by
  decide

/-- C6 amended: the cache operations resolve (as absent or as no-ops) when
the storage engine itself is unavailable, because the open failure is
caught; but when the engine opens and the underlying request fails, the
inner Promise is returned without await and each operation rejects. -/
theorem cacheStore_failure_behaviour (st : CacheState) (X : FeatureCollection) (now : Int) :
    (st.engineAvailable = false →
      getFromCache st = .ok none ∧ saveToCache st X now = .ok st ∧ clearCache st = .ok st) ∧
    (st.engineAvailable = true → st.readFails = true →
      getFromCache st = .error .cacheRead) ∧
    (st.engineAvailable = true → st.writeFails = true →
      saveToCache st X now = .error .cacheWrite) ∧
    (st.engineAvailable = true → st.deleteFails = true →
      clearCache st = .error .cacheDelete) := by
  obtain ⟨eng, entry, rf, wf, df⟩ := st
  cases eng <;> cases rf <;> cases wf <;> cases df <;>
    simp [getFromCache, saveToCache, clearCache]

/-- C6 witness: the amended statement applied at an unavailable engine and
at the three request failure states. -/
theorem cacheStore_failure_behaviour_witness :
    (getFromCache ⟨false, none, false, false, false⟩ = .ok none ∧
      saveToCache ⟨false, none, false, false, false⟩ exFC 5 = .ok ⟨false, none, false, false, false⟩ ∧
      clearCache ⟨false, none, false, false, false⟩ = .ok ⟨false, none, false, false, false⟩) ∧
    saveToCache stWriteFail exFC2 5 = .error .cacheWrite :=
  ⟨(cacheStore_failure_behaviour ⟨false, none, false, false, false⟩ exFC 5).1 rfl,
   (cacheStore_failure_behaviour stWriteFail exFC2 5).2.2.1 rfl rfl⟩

/-- C8: with the engine available and the put and get requests succeeding,
a save followed by a read yields an entry holding exactly the saved
collection, the save instant, and the feature count of the collection. -/
theorem saveToCache_then_getFromCache (st : CacheState) (X : FeatureCollection) (now : Int)
    (heng : st.engineAvailable = true) (hw : st.writeFails = false)
    (hr : st.readFails = false) :
    ∃ st2, saveToCache st X now = .ok st2 ∧
      getFromCache st2 = .ok (some ⟨X, now, X.features.length⟩) := by
  refine ⟨{ st with entry := some ⟨X, now, X.features.length⟩ }, ?_, ?_⟩ <;>
    simp [saveToCache, getFromCache, heng, hw, hr]

/-- C8 witness: the save / read round trip at a concrete collection. -/
theorem saveToCache_then_getFromCache_witness :
    ∃ st2, saveToCache stEmpty exFC2 42 = .ok st2 ∧
      getFromCache st2 = .ok (some ⟨exFC2, 42, exFC2.features.length⟩) :=
  saveToCache_then_getFromCache stEmpty exFC2 42 rfl rfl rfl

/-- A property record carrying an exit abbreviation token in the segment
name but no underscore in the route number (the shape the source header
documents for ramps reached through older data conventions). -/
def tokenProps : RoadProps := ⟨.num 9, some "N1", some "10AUSTW", false⟩

/-- C5 counterexample: on a record whose segment name contains the exit
token AUSTW but whose route number has no underscore, isRampSegment
returns false while the claimed predicate (underscore or abbreviation
token in either field) returns true, so the two do not coincide. -/
theorem isRampSegment_token_mismatch :
    isRampSegment tokenProps = false ∧ rampClaimPred tokenProps = true := by
  decide

/-- C5 amended: isRampSegment returns true exactly when the raw route
number string contains an underscore; the segment name field and the
abbreviation tokens are not consulted, so any two records with the same
route number classify identically. -/
theorem isRampSegment_underscore_only (p q : RoadProps)
    (h : p.strassennummer = q.strassennummer) :
    isRampSegment p = (p.strassennummer.getD "").toList.contains '_' ∧
    isRampSegment p = isRampSegment q := by
  exact ⟨rfl, by simp [isRampSegment, h]⟩

/-- C5 witness: the amended statement applied to two records sharing the
route number N1 but with different segment names and stored flags. -/
theorem isRampSegment_underscore_only_witness :
    isRampSegment tokenProps = (tokenProps.strassennummer.getD "").toList.contains '_' ∧
    isRampSegment tokenProps = isRampSegment exProps :=
  isRampSegment_underscore_only tokenProps exProps rfl

/-- Dedup merge specification shared by both loader strategies: the merged
identifiers are pairwise distinct, the merge only discards (the output is
a sublist of the input), and the first occurrence of a truthy identifier
is always kept. -/
theorem mergeFeatures_spec (l : List Feature) :
    ((mergeFeatures l).map effId).Nodup ∧
    List.Sublist (mergeFeatures l) l ∧
    ∀ pre f post, l = pre ++ f :: post → (effId f).truthy = true →
      (∀ g ∈ pre, effId g ≠ effId f) → f ∈ mergeFeatures l := by
  rw [mergeFeatures_eq_keepFirstBy]
  refine ⟨keepFirstBy_map_nodup _ _, keepFirstBy_sublist _ _, ?_⟩
  rintro pre f post rfl ht hpre
  exact keepFirstBy_first_mem pre [] f post ht (by simp) hpre

/-- C4: in every collection produced by loadNationalRoads or by
loadByMultipleZones no two features share an effective identifier; the
output is a sublist of the fetched features in merge order, and whenever a
feature is the first occurrence of its (truthy) identifier in that order
it is kept, so later duplicates are the ones discarded. -/
theorem geoClient_dedup_first_wins (fetch : String → Except JsError (List Feature))
    (zoneResults : List (Except JsError (List Feature))) :
    (((loadNationalRoads fetch).features.map effId).Nodup ∧
      List.Sublist (loadNationalRoads fetch).features (routeFetchList fetch) ∧
      ∀ pre f post, routeFetchList fetch = pre ++ f :: post →
        (effId f).truthy = true → (∀ g ∈ pre, effId g ≠ effId f) →
        f ∈ (loadNationalRoads fetch).features) ∧
    (((loadByMultipleZones zoneResults).features.map effId).Nodup ∧
      List.Sublist (loadByMultipleZones zoneResults).features (zoneFetchList zoneResults) ∧
      ∀ pre f post, zoneFetchList zoneResults = pre ++ f :: post →
        (effId f).truthy = true → (∀ g ∈ pre, effId g ≠ effId f) →
        f ∈ (loadByMultipleZones zoneResults).features) :=
  ⟨mergeFeatures_spec (routeFetchList fetch),
   mergeFeatures_spec (zoneFetchList zoneResults)⟩

/-- Route fetch environment returning one feature on N1 and nothing on the
other routes. -/
def fetchOne : String → Except JsError (List Feature) :=
  fun r => if r = "N1" then .ok [exFeature] else .ok []

/-- C4 witness: the first-occurrence clause applied at a concrete fetch
environment on both strategies. -/
theorem geoClient_dedup_first_wins_witness :
    exFeature ∈ (loadNationalRoads fetchOne).features ∧
    exFeature2 ∈ (loadByMultipleZones [.ok [exFeature2], .ok [exFeature2]]).features :=
  ⟨(geoClient_dedup_first_wins fetchOne []).1.2.2 [] exFeature [] (by decide)
      (by decide) (by simp),
   (geoClient_dedup_first_wins fetchOne [.ok [exFeature2], .ok [exFeature2]]).2.2.2
      [] exFeature2 [exFeature2] (by decide) (by decide) (by simp)⟩

/-- C10: every feature of a collection produced by loadNationalRoads or by
loadByMultipleZones has a truthy effective identifier (properties.id, or
the feature id as fallback); a fetched feature whose identifiers are all
falsy (absent, zero or empty) never appears in the output. -/
theorem geoClient_truthy_ids (fetch : String → Except JsError (List Feature))
    (zoneResults : List (Except JsError (List Feature))) :
    (∀ f ∈ (loadNationalRoads fetch).features, (effId f).truthy = true) ∧
    (∀ f, (effId f).truthy = false → f ∉ (loadNationalRoads fetch).features) ∧
    (∀ f ∈ (loadByMultipleZones zoneResults).features, (effId f).truthy = true) ∧
    (∀ f, (effId f).truthy = false → f ∉ (loadByMultipleZones zoneResults).features) := by
  have hr : ∀ f ∈ (loadNationalRoads fetch).features, (effId f).truthy = true := by
    intro f hf
    have : f ∈ keepFirstBy [] (routeFetchList fetch) := by
      simpa [loadNationalRoads, mergeFeatures_eq_keepFirstBy] using hf
    exact keepFirstBy_mem_truthy [] (routeFetchList fetch) f this
  have hz : ∀ f ∈ (loadByMultipleZones zoneResults).features, (effId f).truthy = true := by
    intro f hf
    have : f ∈ keepFirstBy [] (zoneFetchList zoneResults) := by
      simpa [loadByMultipleZones, mergeFeatures_eq_keepFirstBy] using hf
    exact keepFirstBy_mem_truthy [] (zoneFetchList zoneResults) f this
  refine ⟨hr, ?_, hz, ?_⟩
  · intro f hfalse hmem
    rw [hr f hmem] at hfalse
    cases hfalse
  · intro f hfalse hmem
    rw [hz f hmem] at hfalse
    cases hfalse

/-- C10 witness: the all-falsy feature is rejected from the output of both
strategies even when every unit fetches it. -/
theorem geoClient_truthy_ids_witness :
    badIdFeature ∉ (loadNationalRoads (fun _ => .ok [badIdFeature])).features ∧
    badIdFeature ∉ (loadByMultipleZones [.ok [badIdFeature]]).features :=
  ⟨(geoClient_truthy_ids (fun _ => .ok [badIdFeature]) []).2.1 badIdFeature (by decide),
   (geoClient_truthy_ids fetchOne [.ok [badIdFeature]]).2.2.2 badIdFeature (by decide)⟩

/-- C2 counterexample: when every route query and every zone query fails,
both strategies net zero features and loadNationalRoadsWithFallback
resolves with the empty collection; no no-data error is raised,
contradicting the claim that insufficient data from both strategies makes
the operation fail. -/
theorem withFallback_resolves_empty :
    loadNationalRoadsWithFallback (fun _ => .error (.api 500))
      (List.replicate 50 (.error (.api 500))) = .ok ⟨[]⟩ := by
  decide

/-- C2 amended: loadNationalRoadsWithFallback escalates to the zone
strategy exactly when the route-by-route merge nets at most 1000 features;
when both strategies net insufficient or zero data the operation still
resolves, with the (possibly empty) zone collection, rather than failing
with a no-data error. -/
theorem withFallback_escalation (fetch : String → Except JsError (List Feature))
    (zoneResults : List (Except JsError (List Feature))) :
    (1000 < (loadNationalRoads fetch).features.length →
      loadNationalRoadsWithFallback fetch zoneResults = .ok (loadNationalRoads fetch)) ∧
    ((loadNationalRoads fetch).features.length ≤ 1000 →
      loadNationalRoadsWithFallback fetch zoneResults = .ok (loadByMultipleZones zoneResults)) := by
  constructor
  · intro h
    simp [loadNationalRoadsWithFallback, if_pos h]
  · intro h
    simp [loadNationalRoadsWithFallback, if_neg (Nat.not_lt.mpr h)]

/-- C2 witness: the escalation clause applied at a fetch environment that
nets a single feature. -/
theorem withFallback_escalation_witness :
    (loadNationalRoads fetchOne).features.length ≤ 1000 ∧
    loadNationalRoadsWithFallback fetchOne [.ok [exFeature2]] =
      .ok (loadByMultipleZones [.ok [exFeature2]]) :=
  ⟨by decide, (withFallback_escalation fetchOne [.ok [exFeature2]]).2 (by decide)⟩

/-- Rewrite of the stored isRamp flag of every feature of a collection,
leaving the raw attribute strings and the geometries unchanged.  Used to
express that computeStats does not trust the stored flags. -/
def setRampFlags (g : Bool → Bool) (data : FeatureCollection) : FeatureCollection :=
  ⟨data.features.map fun f => { f with props := { f.props with isRamp := g f.props.isRamp } }⟩

theorem length_filter_map_congr {α β : Type} (h : α → β) (p : β → Bool) (p2 : α → Bool)
    (hp : ∀ a, p (h a) = p2 a) (l : List α) :
    ((l.map h).filter p).length = (l.filter p2).length := by
  induction l with
  | nil => rfl
  | cons a as ih =>
    by_cases hpa : p2 a
    · simp [List.filter_cons, hp a, hpa, ih]
    · simp [List.filter_cons, hp a, hpa, ih]

theorem length_filter_filter_map_congr {α β : Type} (h : α → β) (p q : β → Bool)
    (p2 q2 : α → Bool) (hp : ∀ a, p (h a) = p2 a) (hq : ∀ a, q (h a) = q2 a) (l : List α) :
    (((l.map h).filter p).filter q).length = ((l.filter p2).filter q2).length := by
  rw [List.filter_filter, List.filter_filter]
  exact length_filter_map_congr h (fun b => q b && p b) (fun a => q2 a && p2 a)
    (fun a => by simp only [hq a, hp a]) l

theorem computeStats_setRampFlags (g : Bool → Bool) (data : FeatureCollection) :
    computeStats (setRampFlags g data) = computeStats data := by
  obtain ⟨l⟩ := data
  simp only [computeStats, setRampFlags, Stats.mk.injEq]
  refine ⟨by simp, ?_, ?_, ?_⟩
  · exact length_filter_filter_map_congr
      (fun f => { f with props := { f.props with isRamp := g f.props.isRamp } })
      (fun f => f.geomType == GeomType.lineString || f.geomType == GeomType.multiLineString)
      (fun f => ! isRampSegment f.props)
      (fun f => f.geomType == GeomType.lineString || f.geomType == GeomType.multiLineString)
      (fun f => ! isRampSegment f.props)
      (fun a => rfl) (fun a => rfl) l
  · exact length_filter_filter_map_congr
      (fun f => { f with props := { f.props with isRamp := g f.props.isRamp } })
      (fun f => f.geomType == GeomType.lineString || f.geomType == GeomType.multiLineString)
      (fun f => isRampSegment f.props)
      (fun f => f.geomType == GeomType.lineString || f.geomType == GeomType.multiLineString)
      (fun f => isRampSegment f.props)
      (fun a => rfl) (fun a => rfl) l
  · exact length_filter_map_congr
      (fun f => { f with props := { f.props with isRamp := g f.props.isRamp } })
      (fun f => f.geomType == GeomType.point) (fun f => f.geomType == GeomType.point)
      (fun a => rfl) l

/-- C7: when no refresh is forced, the validity query answers true and the
entry reads back, loadNetworkData resolves from the cache: the stored
collection as data, source cache, cacheInfo age equal to
(now - timestamp) / 3600000 hours — and this outcome is the same whatever
the remote fetch would have produced, so the remote client is never
consulted; the reported stats are recomputed from the stored data through
isRampSegment at load time, hence invariant under any rewrite of the
stored isRamp flags. -/
theorem loadNetworkData_cache_hit (st : CacheState) (reg : SystemInfo) (now : Int)
    (cached : CachedData)
    (hvalid : isCacheValid st now = .ok true)
    (hread : getFromCache st = .ok (some cached)) :
    (∀ fetchResult, loadNetworkData false st reg fetchResult now =
      ⟨.ok ⟨cached.data, .cache, computeStats cached.data,
            some ⟨ageHoursOf now cached.timestamp, cached.timestamp⟩⟩,
       st, updateSystemStatus reg (loaderPayload .online)⟩) ∧
    (∀ g, computeStats (setRampFlags g cached.data) = computeStats cached.data) := by
  refine ⟨?_, fun g => computeStats_setRampFlags g cached.data⟩
  intro fetchResult
  simp [loadNetworkData, hvalid, hread]

/-- C7 witness: the cache-hit clause applied at a two hour old entry and a
remote outcome that would have failed. -/
theorem loadNetworkData_cache_hit_witness :
    loadNetworkData false stFresh initialNetworkLayer (.error (.api 500)) t2h =
      ⟨.ok ⟨freshEntry.data, .cache, computeStats freshEntry.data,
            some ⟨ageHoursOf t2h freshEntry.timestamp, freshEntry.timestamp⟩⟩,
       stFresh, updateSystemStatus initialNetworkLayer (loaderPayload .online)⟩ :=
  (loadNetworkData_cache_hit stFresh initialNetworkLayer t2h freshEntry
      (by decide) (by decide)).1 (.error (.api 500))

/-- C9: with a working storage engine, loadNetworkData true first empties
the cache slot and then always takes the fetch path, whatever the prior
entry was: a successful fetch resolves with source api, the fetched data
and the slot rewritten to it, never the pre-existing entry; and a failing
fetch rejects (the stale fallback finds the slot already cleared), so the
pre-existing entry is never returned either. -/
theorem loadNetworkData_force_refresh (st : CacheState) (reg : SystemInfo) (now : Int)
    (data : FeatureCollection)
    (heng : st.engineAvailable = true) (hdel : st.deleteFails = false)
    (hread : st.readFails = false) (hwrite : st.writeFails = false) :
    (loadNetworkData true st reg (.ok data) now =
      ⟨.ok ⟨data, .api, computeStats data, none⟩,
       { st with entry := some ⟨data, now, data.features.length⟩ },
       updateSystemStatus (updateSystemStatus reg (loaderPayload .loading))
         (loaderPayload .online)⟩) ∧
    (∀ e, (loadNetworkData true st reg (.error e) now).result = .error e ∧
      (loadNetworkData true st reg (.error e) now).cache.entry = none) := by
  obtain ⟨eng, entry, rf, wf, df⟩ := st
  cases heng
  cases hdel
  cases hread
  cases hwrite
  exact ⟨rfl, fun e => ⟨rfl, rfl⟩⟩

/-- C9 witness: force refresh over a fresh, still valid entry resolves
from the remote fetch, not from that entry. -/
theorem loadNetworkData_force_refresh_witness :
    loadNetworkData true stFresh initialNetworkLayer (.ok exFC2) t2h =
      ⟨.ok ⟨exFC2, .api, computeStats exFC2, none⟩,
       { stFresh with entry := some ⟨exFC2, t2h, exFC2.features.length⟩ },
       updateSystemStatus (updateSystemStatus initialNetworkLayer (loaderPayload .loading))
         (loaderPayload .online)⟩ :=
  (loadNetworkData_force_refresh stFresh initialNetworkLayer t2h exFC2
      rfl rfl rfl rfl).1

/-- C1: evaluation at the failing inputs.  With a stale 30 hour old entry
and a rejecting fetch, loadNetworkData resolves with that entry, source
cache and an age of 30 hours, as the claim states; but the registry record
keeps state unknown: the loader payload carries the health value under a
status key, the spread of updateSystemStatus therefore leaves the declared
state field untouched and only creates a stray status property, so neither
degraded (stale branch) nor offline (empty branch) is ever recorded in the
state field the consumers read.  With an empty cache the call rejects with
the fetch error, again leaving state unknown. -/
theorem loadNetworkData_status_key_bug :
    ((loadNetworkData false stFresh initialNetworkLayer (.error (.api 503)) t30h).result =
      .ok ⟨exFC, .cache, computeStats exFC, some ⟨30, 0⟩⟩) ∧
    (loadNetworkData false stFresh initialNetworkLayer (.error (.api 503)) t30h).registry.state
      = .unknown ∧
    ¬ (loadNetworkData false stFresh initialNetworkLayer (.error (.api 503)) t30h).registry.state
      = .degraded ∧
    (loadNetworkData false stFresh initialNetworkLayer (.error (.api 503)) t30h).registry.statusExtra
      = some .degraded ∧
    (loadNetworkData false stEmpty initialNetworkLayer (.error (.api 503)) t30h).result
      = .error (.api 503) ∧
    (loadNetworkData false stEmpty initialNetworkLayer (.error (.api 503)) t30h).registry.state
      = .unknown ∧
    ¬ (loadNetworkData false stEmpty initialNetworkLayer (.error (.api 503)) t30h).registry.state
      = .offline ∧
    (loadNetworkData false stEmpty initialNetworkLayer (.error (.api 503)) t30h).registry.statusExtra
      = some .offline := by
  refine ⟨?_, rfl, by decide, rfl, rfl, rfl, by decide, rfl⟩
  have hage : ageHoursOf t30h 0 = 30 := by
    norm_num [ageHoursOf, t30h]
  calc (loadNetworkData false stFresh initialNetworkLayer (.error (.api 503)) t30h).result
      = .ok ⟨exFC, .cache, computeStats exFC, some ⟨ageHoursOf t30h 0, 0⟩⟩ := rfl
    _ = .ok ⟨exFC, .cache, computeStats exFC, some ⟨30, 0⟩⟩ := by rw [hage]

end Traffic
